import Mathlib

/-!
Shallow embedding of the order-routing and market-data dispatch core of the
AlgoTrading platform (src/app.py), together with theorems settling the
frozen claims about its specification.

Conventions of the embedding:
* Python dict entries that are only conditionally present are modelled as
  Option fields (none = key absent).
* The process-global trading_state dict (src/app.py lines 40-49) is the
  structure TradingState, threaded explicitly through every operation.
* Wall-clock readings (datetime.now) are passed in as an explicit natural
  number now, interpreted as the epoch second; int(datetime.now().timestamp())
  is exactly that number.
* socketio.emit calls are modelled by returning the list of emitted events.
* Prices are rationals; quantities are integers; timestamps are naturals.
* A Python exception raised by an external collaborator (broker SDK, module
  loading, websocket connect) is modelled by an Except or Option String
  carrying the exception message.
* A user strategy callback can act on the system only through the
  TradingContext capability (read market data and positions, place orders),
  so a callback is modelled as a function from the context it is handed to
  the list of order requests it makes, paired with some message when the
  callback raises after making those requests.
-/

namespace AlgoTrading

/-- Latest stored quote for one symbol, as built by on_tick
(src/app.py lines 149-153). -/
structure Quote where
  ltp : ℚ
  volume : ℕ
  timestamp : ℕ
deriving DecidableEq

/-- The order_data dict built by TradingContext.place_order
(src/app.py lines 94-131).  Keys that are only set on some paths
(order_id, status, executed_price) are Options. -/
structure OrderData where
  symbol : String
  quantity : ℤ
  side : String
  order_type : String
  price : Option ℚ
  timestamp : ℕ
  mode : String
  order_id : Option String
  status : Option String
  executed_price : Option ℚ
deriving DecidableEq

/-- Events pushed to the dashboard over the socket channel. -/
inductive Event where
  | order_update (o : OrderData)
  | market_data (md : String → Option Quote)
  | log (timestamp : ℕ) (message : String) (level : String)

/-- Recognizer for order_update events. -/
def Event.isOrderUpdate : Event → Bool
  | .order_update _ => true
  | _ => false

/-- Recognizer for log events. -/
def Event.isLog : Event → Bool
  | .log _ _ _ => true
  | _ => false

/-- Arguments of the live broker call dhan_client.place_order
(src/app.py lines 106-114), after the source computes them from the intent. -/
structure LiveOrderArgs where
  security_id : String
  transaction_type : String
  quantity : ℤ
  order_type : String
  price : Option ℚ
deriving DecidableEq

/-- The external Dhan broker client.  A call either returns the broker
orderId (the field read at src/app.py line 115) or raises with a message. -/
structure BrokerClient where
  place_order : LiveOrderArgs → Except String String

/-- The external market-data websocket client.  connect_result is some
message when ws_client.connect() raises (src/app.py line 707). -/
structure WSClient where
  connect_result : Option String

/-- The module-level client globals of src/app.py (lines 22-54): the
DHAN_AVAILABLE flag and the possibly-unset dhan_client and ws_client. -/
structure Env where
  DHAN_AVAILABLE : Bool
  dhan_client : Option BrokerClient
  ws_client : Option WSClient

/-- A position entry; never constructed or inspected by the core in
src/app.py (trading_state positions is only ever read back verbatim). -/
structure Position

/-- The pnl sub-dict of trading_state (src/app.py line 45); never mutated. -/
structure Pnl where
  realized : ℚ
  unrealized : ℚ
  total : ℚ
deriving DecidableEq

/-- One order request a strategy callback makes through
context.place_order, with the Python default arguments
(src/app.py line 93). -/
structure OrderReq where
  symbol : String
  quantity : ℤ
  side : String
  order_type : String := "MARKET"
  price : Option ℚ := none
deriving DecidableEq

/-- The context object handed to strategy callbacks
(src/app.py lines 84-92): read-only snapshots bound at construction. -/
structure TradingContext where
  positions : List Position
  orders : List OrderData
  market_data : String → Option Quote
  mode : String

/-- context.get_market_data (src/app.py lines 141-142); the Python code
returns an empty dict when the symbol is absent, modelled as none. -/
def TradingContext.get_market_data (ctx : TradingContext) (symbol : String) :
    Option Quote :=
  ctx.market_data symbol

/-- context.get_positions (src/app.py lines 138-139). -/
def TradingContext.get_positions (ctx : TradingContext) : List Position :=
  ctx.positions

/-- One entry of an incoming tick batch, with the keys read by on_tick
(src/app.py lines 148-151); each key may be absent. -/
structure TickToken where
  name : Option String
  last_traded_price : Option ℚ
  volume_trade_for_the_day : Option ℕ
deriving DecidableEq

/-- A loaded user strategy (class StrategyRunner, src/app.py lines 57-81).
Each duck-typed callback is an Option: none models the module not defining
that attribute, in which case the runner silently skips the call.  A present
callback maps the context it receives (and for on_tick the tick batch) to
the order requests it places through the context, paired with some message
when the callback raises an exception after placing them. -/
structure StrategyRunner where
  initialize_cb : Option (TradingContext → List OrderReq × Option String)
  on_tick_cb : Option (TradingContext → List TickToken → List OrderReq × Option String)
  on_order_update_cb : Option (TradingContext → OrderData → List OrderReq × Option String)

/-- The process-global trading_state dict (src/app.py lines 40-49). -/
structure TradingState where
  mode : String
  is_running : Bool
  positions : List Position
  orders : List OrderData
  pnl : Pnl
  market_data : String → Option Quote
  strategy : Option StrategyRunner
  subscribed_symbols : List String

/-- The initial trading_state literal (src/app.py lines 40-49). -/
def initialState : TradingState where
  mode := "paper"
  is_running := false
  positions := []
  orders := []
  pnl := ⟨0, 0, 0⟩
  market_data := fun _ => none
  strategy := none
  subscribed_symbols := []

/-- Construction of the context object from the global state
(TradingContext init, src/app.py lines 87-91). -/
def mkContext (st : TradingState) : TradingContext where
  positions := st.positions
  orders := st.orders
  market_data := st.market_data
  mode := st.mode

/-- The branch of TradingContext.place_order that fills in the order_data
dict and produces the log emissions (src/app.py lines 104-131).  The first
scrutinee packages the Python guard at line 104: the live path runs only
when the mode is live, dhan_client is set and DHAN_AVAILABLE holds; the
Python elif at line 122 otherwise tests for paper mode; any other mode
(backtest included) leaves order_data untouched.  In the paper branch the
source expression price if price else 0 applies Python truthiness, so a
price of 0 and an absent price both yield 0. -/
def place_order_branch (env : Env) (st : TradingState) (now : ℕ)
    (symbol : String) (quantity : ℤ) (side : String) (order_type : String)
    (price : Option ℚ) (base : OrderData) : OrderData × List Event :=
  match (if st.mode = "live" ∧ env.DHAN_AVAILABLE then env.dhan_client else none) with
  | some dc =>
    match dc.place_order
        { security_id := symbol
          transaction_type := if side = "BUY" then "BUY" else "SELL"
          quantity := quantity
          order_type := if order_type = "MARKET" then "MARKET" else "LIMIT"
          price := if order_type = "LIMIT" then price else some 0 } with
    | .ok oid =>
        ({ base with order_id := some oid, status := some "PENDING" },
         [Event.log now ("Live order placed: " ++ oid) "success"])
    | .error e =>
        ({ base with status := some "FAILED" },
         [Event.log now ("Order failed: " ++ e) "error"])
  | none =>
    if st.mode = "paper" then
      let ep : ℚ :=
        match st.market_data symbol with
        | some q => q.ltp
        | none =>
          match price with
          | some p => if p ≠ 0 then p else 0
          | none => 0
      ({ base with
          order_id := some ("PAPER_" ++ toString now)
          status := some "EXECUTED"
          executed_price := some ep },
       [Event.log now ("Paper order: " ++ side ++ " " ++ toString quantity ++ " " ++ symbol) "info"])
    else (base, [])

/-- TradingContext.place_order (src/app.py lines 93-136).  Returns the
order_data dict the call returns, the updated global state, and the events
emitted during the call.  Whatever the branch did, the record is appended
to the order log and an order_update event is emitted (lines 133-134). -/
def place_order (env : Env) (st : TradingState) (now : ℕ) (symbol : String)
    (quantity : ℤ) (side : String) (order_type : String := "MARKET")
    (price : Option ℚ := none) : OrderData × TradingState × List Event :=
  let base : OrderData :=
    { symbol := symbol, quantity := quantity, side := side
      order_type := order_type, price := price, timestamp := now
      mode := st.mode, order_id := none, status := none, executed_price := none }
  let branch := place_order_branch env st now symbol quantity side order_type price base
  (branch.1, { st with orders := st.orders ++ [branch.1] },
   branch.2 ++ [Event.order_update branch.1])

/-- Runs the order requests a strategy callback makes through
context.place_order, threading the state and accumulating emissions. -/
def runOrderReqs (env : Env) (now : ℕ) :
    TradingState × List Event → List OrderReq → TradingState × List Event
  | acc, [] => acc
  | (st, evs), r :: rs =>
      let res := place_order env st now r.symbol r.quantity r.side r.order_type r.price
      runOrderReqs env now (res.2.1, evs ++ res.2.2) rs

/-- Overwriting of the per-symbol entry of the market-data dict: the
assignment trading_state market_data at src/app.py lines 149-153 replaces
the whole value for that key with a freshly built dict. -/
def mdUpdate (md : String → Option Quote) (symbol : String) (q : Quote) :
    String → Option Quote :=
  fun s => if s = symbol then some q else md s

/-- The fresh quote dict built for one tick token (src/app.py lines
149-153): the last traded price arrives in hundredths and is divided by
100, missing keys default as in the source .get calls. -/
def tickQuote (tok : TickToken) (now : ℕ) : Quote where
  ltp := tok.last_traded_price.getD 0 / 100
  volume := tok.volume_trade_for_the_day.getD 0
  timestamp := now

/-- The market-data ingest loop of on_tick (src/app.py lines 147-153). -/
def ingestTicks (md : String → Option Quote) (tick : List TickToken)
    (now : ℕ) : String → Option Quote :=
  tick.foldl (fun acc tok => mdUpdate acc (tok.name.getD "") (tickQuote tok now)) md

/-- The on_tick websocket handler (src/app.py lines 145-162): update the
market-data store, invoke the strategy on_tick callback when the session is
running and a strategy is loaded, then emit the market_data snapshot; an
exception raised by the callback is caught by the handler and turned into
an error log emission, skipping the market_data emission. -/
def on_tick (env : Env) (st : TradingState) (tick : List TickToken)
    (now : ℕ) : TradingState × List Event :=
  let st1 := { st with market_data := ingestTicks st.market_data tick now }
  match (if st1.is_running then st1.strategy else none) with
  | some strat =>
    match strat.on_tick_cb with
    | some cb =>
      let r := cb (mkContext st1) tick
      let res := runOrderReqs env now (st1, []) r.1
      match r.2 with
      | some e => (res.1, res.2 ++ [Event.log now ("Tick error: " ++ e) "error"])
      | none => (res.1, res.2 ++ [Event.market_data res.1.market_data])
    | none => (st1, [Event.market_data st1.market_data])
  | none => (st1, [Event.market_data st1.market_data])

/-- Outcome of an HTTP route handler: the ok payload carries the extra
success field of the JSON body (the uploaded filename, or empty). -/
inductive ApiResult where
  | ok (payload : String)
  | error (message : String)
deriving DecidableEq

/-- The start_trading route handler (src/app.py lines 689-715).  The
requested mode is written into the state before any validation (line 692);
the no-strategy and already-running checks return early; otherwise the
running flag is set, the strategy initialize callback is invoked with a
fresh context, the websocket feed is connected unless the mode is
backtest, and a success log is emitted.  An exception from the callback or
the connect call is caught, the running flag is reset to false, and an
error log is emitted. -/
def start_trading (env : Env) (st : TradingState) (reqMode : Option String)
    (now : ℕ) : ApiResult × TradingState × List Event :=
  let st := { st with mode := reqMode.getD "paper" }
  match st.strategy with
  | none => (.error "No strategy loaded", st, [])
  | some strat =>
    if st.is_running then (.error "Already running", st, [])
    else
      let st1 := { st with is_running := true }
      let r :=
        match strat.initialize_cb with
        | some cb => cb (mkContext st1)
        | none => ([], none)
      let res := runOrderReqs env now (st1, []) r.1
      match r.2 with
      | some e =>
          (.error e, { res.1 with is_running := false },
           res.2 ++ [Event.log now ("Start failed: " ++ e) "error"])
      | none =>
        match (if st.mode ≠ "backtest" then env.ws_client else none) with
        | some ws =>
          match ws.connect_result with
          | some e =>
              (.error e, { res.1 with is_running := false },
               res.2 ++ [Event.log now ("Start failed: " ++ e) "error"])
          | none =>
              (.ok "", res.1,
               res.2 ++ [Event.log now ("Trading started in " ++ st.mode ++ " mode") "success"])
        | none =>
            (.ok "", res.1,
             res.2 ++ [Event.log now ("Trading started in " ++ st.mode ++ " mode") "success"])

/-- The stop_trading route handler (src/app.py lines 718-729): clears the
running flag, makes a best-effort websocket close whose errors are
swallowed, emits one warning log, and always succeeds. -/
def stop_trading (st : TradingState) (now : ℕ) :
    ApiResult × TradingState × List Event :=
  (.ok "", { st with is_running := false },
   [Event.log now "Trading stopped" "warning"])

/-- One uploaded strategy file: the filename, and the outcome of
constructing StrategyRunner from it, which executes the module and may
raise (src/app.py lines 65-69 and 675-679). -/
structure UploadFile where
  filename : String
  load_strategy : Except String StrategyRunner

/-- The upload_strategy route handler (src/app.py lines 664-686): rejects
a missing file or a filename not ending in .py without touching the state;
otherwise loads the module, installing the runner as the current strategy
on success, and leaves the state unchanged when loading raises. -/
def upload_strategy (st : TradingState) (file : Option UploadFile)
    (now : ℕ) : ApiResult × TradingState × List Event :=
  match file with
  | none => (.error "No file provided", st, [])
  | some f =>
    if ¬ f.filename.endsWith ".py" then (.error "Invalid Python file", st, [])
    else
      match f.load_strategy with
      | .ok s =>
          (.ok f.filename, { st with strategy := some s },
           [Event.log now ("Strategy loaded: " ++ f.filename) "success"])
      | .error e =>
          (.error e, st, [Event.log now ("Strategy load failed: " ++ e) "error"])

/-- The operations that mutate the global trading state: strategy upload,
session start and stop, tick handling, and direct order placement. -/
inductive Op where
  | upload (file : Option UploadFile) (now : ℕ)
  | start (reqMode : Option String) (now : ℕ)
  | stop (now : ℕ)
  | tick (tk : List TickToken) (now : ℕ)
  | place (symbol : String) (quantity : ℤ) (side : String)
      (order_type : String) (price : Option ℚ) (now : ℕ)

/-- State transition of one operation. -/
def applyOp (env : Env) (st : TradingState) : Op → TradingState
  | .upload f now => (upload_strategy st f now).2.1
  | .start m now => (start_trading env st m now).2.1
  | .stop now => (stop_trading st now).2.1
  | .tick tk now => (on_tick env st tk now).1
  | .place s q sd ot p now => (place_order env st now s q sd ot p).2.1

/-- State reached after a sequence of operations. -/
def runOps (env : Env) (st : TradingState) (ops : List Op) : TradingState :=
  ops.foldl (applyOp env) st

/-- The session invariant of the specification: a running session has a
loaded strategy handle. -/
def RunningImpliesStrategy (st : TradingState) : Prop :=
  st.is_running = true → st.strategy.isSome = true

instance (st : TradingState) : Decidable (RunningImpliesStrategy st) := by
  unfold RunningImpliesStrategy; infer_instance

/-- An environment in which no broker client was ever configured; the Dhan
SDK import itself succeeded. -/
def envNoBroker : Env := ⟨true, none, none⟩

/-- A state holding one stored quote for RELIANCE, in paper mode. -/
def stWithQuote : TradingState :=
  { initialState with
      market_data := fun s => if s = "RELIANCE" then some ⟨203 / 2, 5, 0⟩ else none }

/-- The same state switched to backtest mode. -/
def stBacktest : TradingState := { stWithQuote with mode := "backtest" }

/-- The same state switched to live mode. -/
def stLiveNoBroker : TradingState := { stWithQuote with mode := "live" }

/-- A loaded strategy defining none of the three callbacks. -/
def stratNop : StrategyRunner := ⟨none, none, none⟩

/-- A stopped state with a strategy whose initialize callback raises. -/
def stBoom : TradingState :=
  { initialState with strategy := some ⟨some (fun _ => ([], some "boom")), none, none⟩ }

/-- A running state with a strategy whose on_tick callback raises. -/
def stTickBoom : TradingState :=
  { initialState with
      is_running := true
      strategy := some ⟨none, some (fun _ _ => ([], some "tickboom")), none⟩ }

/-- A running state with a loaded no-op strategy. -/
def stRunning : TradingState :=
  { initialState with is_running := true, strategy := some stratNop }

theorem place_order_branch_no_order_update (env : Env) (st : TradingState)
    (now : ℕ) (symbol : String) (quantity : ℤ) (side : String)
    (order_type : String) (price : Option ℚ) (base : OrderData) :
    ((place_order_branch env st now symbol quantity side order_type price base).2.countP
      Event.isOrderUpdate) = 0 := by
  unfold place_order_branch
  split
  · split <;> simp [Event.isOrderUpdate]
  · split <;> simp [Event.isOrderUpdate]

theorem runOrderReqs_preserves (env : Env) (now : ℕ) (reqs : List OrderReq) :
    ∀ acc : TradingState × List Event,
      (runOrderReqs env now acc reqs).1.is_running = acc.1.is_running ∧
      (runOrderReqs env now acc reqs).1.strategy = acc.1.strategy ∧
      (runOrderReqs env now acc reqs).1.market_data = acc.1.market_data ∧
      (runOrderReqs env now acc reqs).1.mode = acc.1.mode := by
  induction reqs with
  | nil => exact fun acc => ⟨rfl, rfl, rfl, rfl⟩
  | cons r rs ih => exact fun acc => ih _

/-- C1: in PAPER mode every place call appends exactly one record, with
status EXECUTED and executed price equal to the stored quote for the
symbol when one exists, else the provided limit price, else 0. -/
theorem C1_paper_place_executes (env : Env) (st : TradingState) (now : ℕ)
    (symbol : String) (quantity : ℤ) (side : String) (order_type : String)
    (price : Option ℚ) (hm : st.mode = "paper") :
    (place_order env st now symbol quantity side order_type price).2.1.orders
      = st.orders ++ [(place_order env st now symbol quantity side order_type price).1] ∧
    (place_order env st now symbol quantity side order_type price).1.status
      = some "EXECUTED" ∧
    (place_order env st now symbol quantity side order_type price).1.executed_price
      = some (match st.market_data symbol with
          | some q => q.ltp
          | none => price.getD 0) := by
  refine ⟨rfl, ?_, ?_⟩
  · simp [place_order, place_order_branch, hm]
  · simp only [place_order, place_order_branch, hm]
    cases hq : st.market_data symbol with
    | some q => simp [hq]
    | none =>
      cases price with
      | none => simp [hq]
      | some p =>
        rcases eq_or_ne p 0 with h0 | h0 <;> simp [hq, h0]

/-- C1 witness at a concrete paper-mode state with a stored quote. -/
theorem C1_paper_place_executes_witness :
    stWithQuote.mode = "paper" ∧
    (place_order envNoBroker stWithQuote 42 "RELIANCE" 1 "BUY" "MARKET" none).1.status
      = some "EXECUTED" :=
  ⟨rfl, (C1_paper_place_executes envNoBroker stWithQuote 42 "RELIANCE" 1 "BUY"
    "MARKET" none rfl).2.1⟩

/-- C2: every place call, in every mode and for every broker outcome,
appends exactly one record to the order log and emits exactly one
order_update event. -/
theorem C2_place_appends_once_emits_once (env : Env) (st : TradingState)
    (now : ℕ) (symbol : String) (quantity : ℤ) (side : String)
    (order_type : String) (price : Option ℚ) :
    (place_order env st now symbol quantity side order_type price).2.1.orders.length
      = st.orders.length + 1 ∧
    ((place_order env st now symbol quantity side order_type price).2.2.countP
      Event.isOrderUpdate) = 1 := by
  refine ⟨by simp [place_order], ?_⟩
  have h := place_order_branch_no_order_update env st now symbol quantity side
    order_type price
    { symbol := symbol, quantity := quantity, side := side
      order_type := order_type, price := price, timestamp := now
      mode := st.mode, order_id := none, status := none, executed_price := none }
  simp [place_order, h, Event.isOrderUpdate]

/-- C3 failing input: in backtest mode the place call matches neither the
live branch nor the paper branch, so the appended record carries no order
id, no status and no executed price, while the very same call in paper
mode returns an EXECUTED record. -/
theorem C3_backtest_place_is_not_paper_place :
    (place_order envNoBroker stBacktest 7 "RELIANCE" 1 "BUY" "MARKET" none).1.status = none ∧
    (place_order envNoBroker stBacktest 7 "RELIANCE" 1 "BUY" "MARKET" none).1.order_id = none ∧
    (place_order envNoBroker stBacktest 7 "RELIANCE" 1 "BUY" "MARKET" none).1.executed_price = none ∧
    (place_order envNoBroker stWithQuote 7 "RELIANCE" 1 "BUY" "MARKET" none).1.status
      = some "EXECUTED" :=
  ⟨rfl, rfl, rfl, rfl⟩

/-- C4 failing input: a live-mode place call while dhan_client is unset
falls through both routing branches; the record is appended without any
status and without any error log emission. -/
theorem C4_live_broker_unavailable_silent :
    (place_order envNoBroker stLiveNoBroker 7 "RELIANCE" 1 "BUY" "MARKET" none).1.status = none ∧
    (place_order envNoBroker stLiveNoBroker 7 "RELIANCE" 1 "BUY" "MARKET" none).2.1.orders.length
      = stLiveNoBroker.orders.length + 1 ∧
    ((place_order envNoBroker stLiveNoBroker 7 "RELIANCE" 1 "BUY" "MARKET" none).2.2.countP
      Event.isLog) = 0 :=
  ⟨rfl, rfl, rfl⟩

/-- C5 counterexample: a start call in a paper-mode session with no
strategy fails with the no-strategy error, yet the session mode has
already been overwritten with the requested mode, so the session state is
not unchanged. -/
theorem C5_counterexample_mode_changes_on_failure :
    (start_trading envNoBroker initialState (some "live") 5).1
      = .error "No strategy loaded" ∧
    initialState.mode = "paper" ∧
    (start_trading envNoBroker initialState (some "live") 5).2.1.mode = "live" :=
  ⟨rfl, rfl, rfl⟩

/-- C5 amended: start fails with the no-strategy error when no strategy is
loaded and with the already-running error when the session is running; on
either failure the running flag and the strategy handle are unchanged, but
the session mode has already been set to the requested mode before the
validation, so the mode can change even on a failing call. -/
theorem C5_start_failure_preserves_running_and_strategy (env : Env)
    (st : TradingState) (reqMode : Option String) (now : ℕ) :
    (st.strategy = none →
      (start_trading env st reqMode now).1 = .error "No strategy loaded" ∧
      (start_trading env st reqMode now).2.1.is_running = st.is_running ∧
      (start_trading env st reqMode now).2.1.strategy = st.strategy ∧
      (start_trading env st reqMode now).2.1.mode = reqMode.getD "paper") ∧
    (st.strategy.isSome = true → st.is_running = true →
      (start_trading env st reqMode now).1 = .error "Already running" ∧
      (start_trading env st reqMode now).2.1.is_running = st.is_running ∧
      (start_trading env st reqMode now).2.1.strategy = st.strategy ∧
      (start_trading env st reqMode now).2.1.mode = reqMode.getD "paper") := by
  constructor
  · intro h
    simp [start_trading, h]
  · intro h1 h2
    obtain ⟨s, hs⟩ := Option.isSome_iff_exists.mp h1
    simp [start_trading, hs, h2]

/-- C5 witness: both failure branches at concrete states. -/
theorem C5_start_failure_witness :
    (start_trading envNoBroker initialState (some "live") 5).1
      = .error "No strategy loaded" ∧
    (start_trading envNoBroker stRunning (some "live") 6).1
      = .error "Already running" :=
  ⟨((C5_start_failure_preserves_running_and_strategy envNoBroker initialState
      (some "live") 5).1 rfl).1,
   ((C5_start_failure_preserves_running_and_strategy envNoBroker stRunning
      (some "live") 6).2 rfl rfl).1⟩

theorem start_trading_strategy_unchanged (env : Env) (st : TradingState)
    (reqMode : Option String) (now : ℕ) :
    (start_trading env st reqMode now).2.1.strategy = st.strategy := by
  unfold start_trading
  dsimp only
  split
  · rfl
  · split
    · rfl
    · split
      · exact (runOrderReqs_preserves env now _ _).2.1
      · split
        · split
          · exact (runOrderReqs_preserves env now _ _).2.1
          · exact (runOrderReqs_preserves env now _ _).2.1
        · exact (runOrderReqs_preserves env now _ _).2.1

theorem upload_strategy_inv (st : TradingState) (f : Option UploadFile)
    (now : ℕ) (h : RunningImpliesStrategy st) :
    RunningImpliesStrategy (upload_strategy st f now).2.1 := by
  cases f with
  | none => exact h
  | some f =>
    simp only [upload_strategy]
    split
    · exact h
    · split
      · intro _; rfl
      · exact h

theorem start_trading_inv (env : Env) (st : TradingState)
    (reqMode : Option String) (now : ℕ) (h : RunningImpliesStrategy st) :
    RunningImpliesStrategy (start_trading env st reqMode now).2.1 := by
  intro hr
  rw [start_trading_strategy_unchanged]
  cases hs : st.strategy with
  | some s => rfl
  | none =>
    exfalso
    have hrun : st.is_running = true := by
      revert hr
      unfold start_trading
      dsimp only
      rw [hs]
      exact fun hr => hr
    have hsome := h hrun
    rw [hs] at hsome
    cases hsome

theorem on_tick_inv (env : Env) (st : TradingState) (tick : List TickToken)
    (now : ℕ) (h : RunningImpliesStrategy st) :
    RunningImpliesStrategy (on_tick env st tick now).1 := by
  unfold on_tick
  dsimp only
  split
  · rename_i strat hstrat
    split
    · split
      all_goals
        intro _
        rw [(runOrderReqs_preserves env now _ _).2.1]
        show st.strategy.isSome = true
        cases hre : st.is_running
        · simp [hre] at hstrat
        · simp only [hre, if_pos] at hstrat
          simp [hstrat]
    · exact fun hr => h hr
  · exact fun hr => h hr

theorem applyOp_preserves_inv (env : Env) (st : TradingState) (op : Op)
    (h : RunningImpliesStrategy st) :
    RunningImpliesStrategy (applyOp env st op) := by
  cases op with
  | upload f now => exact upload_strategy_inv st f now h
  | start m now => exact start_trading_inv env st m now h
  | stop now => intro hr; simp [applyOp, stop_trading] at hr
  | tick tk now => exact on_tick_inv env st tk now h
  | place s q sd ot p now => exact h

/-- C6: the invariant that a running session has a loaded strategy holds
in every state reachable by any sequence of operations from a state
satisfying it, upload, start (failing starts included), stop, tick
handling and order placement alike. -/
theorem C6_running_implies_strategy (env : Env) (st : TradingState)
    (ops : List Op) (h : RunningImpliesStrategy st) :
    RunningImpliesStrategy (runOps env st ops) := by
  induction ops generalizing st with
  | nil => exact h
  | cons op ops ih => exact ih _ (applyOp_preserves_inv env st op h)

/-- C6 witness: the invariant holds at the initial state and is carried
through a concrete operation sequence containing a failing start. -/
theorem C6_running_implies_strategy_witness :
    RunningImpliesStrategy initialState ∧
    RunningImpliesStrategy (runOps envNoBroker initialState
      [Op.start (some "live") 1, Op.stop 2]) :=
  ⟨by decide, C6_running_implies_strategy envNoBroker initialState
    [Op.start (some "live") 1, Op.stop 2] (by decide)⟩

/-- C7 counterexample: the second consecutive stop call still emits a
warning log event with the same message as the first, so the second call
is not free of duplicate emitted events. -/
theorem C7_counterexample_second_stop_emits :
    (stop_trading initialState 1).2.2 = [Event.log 1 "Trading stopped" "warning"] ∧
    (stop_trading (stop_trading initialState 1).2.1 2).2.2
      = [Event.log 2 "Trading stopped" "warning"] ∧
    ((stop_trading (stop_trading initialState 1).2.1 2).2.2.countP Event.isLog) = 1 :=
  ⟨rfl, rfl, rfl⟩

/-- C7 amended: stop always succeeds from any state, leaves the running
flag false, and a second consecutive call changes nothing in the state;
however every call, the second included, emits one Trading stopped warning
log event, so the repeated call does re-emit that event. -/
theorem C7_stop_idempotent_on_state (st : TradingState) (n1 n2 : ℕ) :
    (stop_trading st n1).1 = .ok "" ∧
    (stop_trading st n1).2.1.is_running = false ∧
    (stop_trading (stop_trading st n1).2.1 n2).2.1 = (stop_trading st n1).2.1 ∧
    (stop_trading st n1).2.2 = [Event.log n1 "Trading stopped" "warning"] ∧
    (stop_trading (stop_trading st n1).2.1 n2).2.2
      = [Event.log n2 "Trading stopped" "warning"] :=
  ⟨rfl, rfl, rfl, rfl, rfl⟩

theorem on_tick_market_data (env : Env) (st : TradingState)
    (tick : List TickToken) (now : ℕ) :
    (on_tick env st tick now).1.market_data
      = ingestTicks st.market_data tick now := by
  unfold on_tick
  dsimp only
  split
  · split
    · split
      · exact (runOrderReqs_preserves env now _ _).2.2.1
      · exact (runOrderReqs_preserves env now _ _).2.2.1
    · rfl
  · rfl

/-- C8: a tick carrying last price p1 for a symbol (the feed delivers it
as 100 times p1, hundredths of a unit) leaves a stored quote whose ltp is
p1 for that symbol, and a subsequent tick carrying p2 fully replaces the
quote: every field of the stored quote comes from the second tick alone,
with nothing merged from the first. -/
theorem C8_tick_update_fully_replaces (env : Env) (st : TradingState)
    (sym : String) (p1 p2 : ℚ) (v1 v2 n1 n2 : ℕ) :
    (mkContext (on_tick env st [⟨some sym, some (100 * p1), some v1⟩] n1).1).get_market_data sym
      = some ⟨p1, v1, n1⟩ ∧
    (mkContext (on_tick env (on_tick env st [⟨some sym, some (100 * p1), some v1⟩] n1).1
        [⟨some sym, some (100 * p2), some v2⟩] n2).1).get_market_data sym
      = some ⟨p2, v2, n2⟩ := by
  have h100 : (100 : ℚ) ≠ 0 := by norm_num
  constructor
  · show (on_tick env st [⟨some sym, some (100 * p1), some v1⟩] n1).1.market_data sym = _
    rw [on_tick_market_data]
    simp [ingestTicks, mdUpdate, tickQuote, mul_div_cancel_left₀ _ h100]
  · show (on_tick env (on_tick env st [⟨some sym, some (100 * p1), some v1⟩] n1).1
        [⟨some sym, some (100 * p2), some v2⟩] n2).1.market_data sym = _
    rw [on_tick_market_data]
    simp [ingestTicks, mdUpdate, tickQuote, mul_div_cancel_left₀ _ h100]

/-- C9 counterexample: two distinct paper place calls made at the same
epoch second produce two distinct records carrying the very same
synthesized order id, so the synthesized ids are not locally unique. -/
theorem C9_counterexample_same_second_collides :
    (place_order envNoBroker initialState 42 "RELIANCE" 1 "BUY" "MARKET" none).1.order_id
      = some "PAPER_42" ∧
    (place_order envNoBroker
        (place_order envNoBroker initialState 42 "RELIANCE" 1 "BUY" "MARKET" none).2.1
        42 "TCS" 2 "SELL" "MARKET" none).1.order_id
      = some "PAPER_42" ∧
    (place_order envNoBroker initialState 42 "RELIANCE" 1 "BUY" "MARKET" none).1
      ≠ (place_order envNoBroker
          (place_order envNoBroker initialState 42 "RELIANCE" 1 "BUY" "MARKET" none).2.1
          42 "TCS" 2 "SELL" "MARKET" none).1 := by
  refine ⟨rfl, rfl, ?_⟩
  intro h
  exact absurd (congrArg OrderData.symbol h) (by decide)

/-- C9 amended: in PAPER mode the synthesized order id is the string
PAPER_ followed by the decimal epoch second of the call, so it is
determined solely by the call time; two place calls within the same epoch
second therefore receive the same id, and ids can only distinguish calls
made at distinct epoch seconds. -/
theorem C9_paper_order_id_from_epoch_second (env : Env) (st : TradingState)
    (now : ℕ) (symbol : String) (quantity : ℤ) (side : String)
    (order_type : String) (price : Option ℚ) (hm : st.mode = "paper") :
    (place_order env st now symbol quantity side order_type price).1.order_id
      = some ("PAPER_" ++ toString now) := by
  simp [place_order, place_order_branch, hm]

/-- C9 witness at a concrete paper-mode call. -/
theorem C9_paper_order_id_witness :
    initialState.mode = "paper" ∧
    (place_order envNoBroker initialState 42 "RELIANCE" 1 "BUY" "MARKET" none).1.order_id
      = some ("PAPER_" ++ toString 42) :=
  ⟨rfl, C9_paper_order_id_from_epoch_second envNoBroker initialState 42
    "RELIANCE" 1 "BUY" "MARKET" none rfl⟩

/-- C10 counterexample: a strategy whose initialize callback raises makes
the start call fail: the exception is caught and logged, but the running
flag, which the handler had already set, is reset to false, so the session
does not stay in the RUNNING state as the claim requires for every
callback. -/
theorem C10_counterexample_initialize_halts_session :
    (start_trading envNoBroker stBoom (some "paper") 9).1 = .error "boom" ∧
    (start_trading envNoBroker stBoom (some "paper") 9).2.1.is_running = false ∧
    (start_trading envNoBroker stBoom (some "paper") 9).2.2
      = [Event.log 9 "Start failed: boom" "error"] :=
  ⟨rfl, rfl, rfl⟩

/-- C10 amended: an exception raised inside the on_tick callback is caught
by the tick handler and turned into an error log emission, the session
stays RUNNING with its strategy unchanged and the tick is dropped; an
exception raised inside the initialize callback is likewise caught and
logged, but it makes the start call fail and resets the running flag to
false, so the session does not remain running in that case (and the
on_order_update callback is never invoked by the router at all). -/
theorem C10_callback_exceptions_caught (env : Env) (st : TradingState)
    (strat : StrategyRunner) (now : ℕ) (e : String) :
    (∀ (cb : TradingContext → List TickToken → List OrderReq × Option String)
       (reqs : List OrderReq) (tick : List TickToken),
      st.is_running = true → st.strategy = some strat →
      strat.on_tick_cb = some cb →
      cb (mkContext { st with market_data := ingestTicks st.market_data tick now }) tick
        = (reqs, some e) →
      (on_tick env st tick now).1.is_running = true ∧
      (on_tick env st tick now).1.strategy = st.strategy ∧
      ∃ evs, (on_tick env st tick now).2
        = evs ++ [Event.log now ("Tick error: " ++ e) "error"]) ∧
    (∀ (cb : TradingContext → List OrderReq × Option String)
       (reqs : List OrderReq) (reqMode : Option String),
      st.is_running = false → st.strategy = some strat →
      strat.initialize_cb = some cb →
      cb (mkContext { st with mode := reqMode.getD "paper", is_running := true })
        = (reqs, some e) →
      (start_trading env st reqMode now).1 = .error e ∧
      (start_trading env st reqMode now).2.1.is_running = false ∧
      ∃ evs, (start_trading env st reqMode now).2.2
        = evs ++ [Event.log now ("Start failed: " ++ e) "error"]) := by
  constructor
  · intro cb reqs tick hrun hstrat hcb hraise
    dsimp only [mkContext] at hraise
    unfold on_tick
    dsimp only [mkContext]
    have hscrut : (if st.is_running = true then st.strategy else none) = some strat := by
      rw [hrun, hstrat]
      simp
    rw [hscrut]
    dsimp only
    rw [hcb]
    dsimp only
    rw [hraise]
    refine ⟨?_, ?_, ⟨_, rfl⟩⟩
    · rw [(runOrderReqs_preserves env now _ _).1]
      exact hrun
    · exact (runOrderReqs_preserves env now _ _).2.1
  · intro cb reqs reqMode hrun hstrat hcb hraise
    dsimp only [mkContext] at hraise
    unfold start_trading
    dsimp only [mkContext]
    rw [hstrat]
    dsimp only
    rw [hrun, if_neg (by decide : ¬((false : Bool) = true))]
    rw [hcb]
    dsimp only
    rw [hraise]
    exact ⟨rfl, rfl, ⟨_, rfl⟩⟩

/-- C10 witness: both callback kinds raising at concrete states. -/
theorem C10_callback_exceptions_witness :
    (on_tick envNoBroker stTickBoom [] 3).1.is_running = true ∧
    (start_trading envNoBroker stBoom (some "paper") 9).1 = .error "boom" :=
  ⟨((C10_callback_exceptions_caught envNoBroker stTickBoom
      ⟨none, some (fun _ _ => ([], some "tickboom")), none⟩ 3 "tickboom").1
      (fun _ _ => ([], some "tickboom")) [] [] rfl rfl rfl rfl).1,
   ((C10_callback_exceptions_caught envNoBroker stBoom
      ⟨some (fun _ => ([], some "boom")), none, none⟩ 9 "boom").2
      (fun _ => ([], some "boom")) [] (some "paper") rfl rfl rfl rfl).1⟩

end AlgoTrading
